import Mathlib

/-!
Verification development for the CMAP VoIP monitor (shallow embedding of the
C sources under src/).  Machine integers are modelled as Nat/Int with explicit
reduction modulo 2^16 / 2^32 where the C code performs fixed-width arithmetic;
C doubles are modelled as rationals (exact field arithmetic); C strings are
modelled as lists of characters.  Each definition carries a comment naming the
C function and file it embeds.
-/

namespace CMAP

/-- Reduction modulo 2^16, for C uint16_t arithmetic. -/
def u16 (n : Nat) : Nat := n % 65536

/-- Reduction modulo 2^32, for C uint32_t arithmetic. -/
def u32 (n : Nat) : Nat := n % 4294967296

/-- Two's-complement wrap of an integer into int32_t range [-2^31, 2^31).
Used where the C code converts or overflows into a signed 32-bit value
(gcc two's-complement behaviour assumed). -/
def wrap32 (z : Int) : Int := (z + 2147483648) % 4294967296 - 2147483648

/-- C uint32_t subtraction a - b (wrapping), result as a Nat in [0, 2^32). -/
def u32sub (a b : Nat) : Nat := (((a : Int) - (b : Int)) % 4294967296).toNat

/-!
## RTP stream statistics (src/src/network/rtp_utils.c)

The fields of struct rtp_stream (src/src/utils/rtp_types.h) that the
statistics path reads or writes.  Fields that the statistics functions below
never touch (address strings, PLC frame buffers, the audio context pointer,
the adaptive-buffer stats written only by adapt_jitter_buffer) are omitted;
see the comment on update_stream_stats for the treatment of
adapt_jitter_buffer.  double fields are rationals.
-/
structure RtpStream where
  packets_received : Nat := 0
  base_seq : Nat := 0
  max_seq : Nat := 0
  last_seq : Nat := 0
  bad_seq : Nat := 0
  cycles : Nat := 0
  received : Nat := 0
  received_prior : Nat := 0
  expected_prior : Nat := 0
  lost_packets : Nat := 0
  out_of_order : Nat := 0
  probation : Nat := 2
  last_timestamp : Nat := 0
  transit : Int := 0
  jitter : ℚ := 0
  clock_rate : Nat := 8000
  last_packet_time_sec : Nat := 0
  consecutive_losses : Nat := 0
  loss_rate : ℚ := 0
  mean_frame_size : ℚ := 0
  jitter_spikes : Nat := 0
  corrected_timestamps : Nat := 0
  concealed_ms : Nat := 0
  recovered_packets : Nat := 0
deriving DecidableEq

/-- Stream state as produced by find_or_create_stream + init_quality_params
(rtp_utils.c): memset to zero, probation = MIN_SEQUENTIAL (2), clock_rate
defaulted to 8000 by init_quality_params. -/
def freshRtpStream : RtpStream := {}

/-- update_quality_metrics (rtp_utils.c, lines 426-446).  LOSS_WINDOW_SIZE
is 100 (rtp_types.h).  The C condition is
seq != (stream->max_seq + 1) && seq > stream->max_seq, evaluated with the
already-updated max_seq since the caller invokes it last. -/
def update_quality_metrics (s : RtpStream) (seq : Nat) (size : Nat) : RtpStream :=
  let cl := if seq ≠ s.max_seq + 1 ∧ s.max_seq < seq
            then s.consecutive_losses + (seq - s.max_seq - 1) else 0
  let clr : ℚ := (s.lost_packets : ℚ) / ((s.packets_received : ℚ) + (s.lost_packets : ℚ))
  let lr := (s.loss_rate * (100 - 1) + clr) / 100
  let mfs := if s.mean_frame_size = 0 then (size : ℚ)
             else (95 / 100) * s.mean_frame_size + (5 / 100) * (size : ℚ)
  { s with consecutive_losses := cl, loss_rate := lr, mean_frame_size := mfs }

/-- First-packet initialisation inside update_stream_stats
(rtp_utils.c, lines 731-743). -/
def firstPacketInit (s : RtpStream) (seq ts : Nat) : RtpStream :=
  { s with base_seq := seq, max_seq := seq, bad_seq := u16 (seq + 1), cycles := 0,
           received := 0, received_prior := 0, expected_prior := 0,
           last_timestamp := ts, transit := 0, jitter := 0, probation := 2 }

/-- Probation branch of update_stream_stats (rtp_utils.c, lines 745-760).
The C comparison seq == stream->max_seq + 1 is done after integer promotion,
so at a 16-bit wrap (max_seq = 65535, seq = 0) it compares 0 with 65536 and
fails; the model reproduces this by comparing plain naturals.
MIN_SEQUENTIAL - 1 = 1. -/
def probationStep (s : RtpStream) (seq : Nat) : RtpStream :=
  if seq = s.max_seq + 1 then
    let s := { s with probation := s.probation - 1, max_seq := seq }
    if s.probation = 0 then { s with base_seq := seq, received := 0 } else s
  else
    { s with probation := 1, max_seq := seq }

/-- Sequence-delta branch of update_stream_stats (rtp_utils.c, lines 762-779).
udelta = seq - max_seq as uint16_t; MAX_DROPOUT = 3000,
RTP_SEQ_MOD - MAX_MISORDER = 65436.  Both misorder branches of the C code
increment out_of_order and leave max_seq alone. -/
def seqAdvance (s : RtpStream) (seq : Nat) : RtpStream :=
  let udelta := u16 (seq + 65536 - s.max_seq)
  if udelta < 3000 then
    if seq < s.max_seq then
      { s with cycles := u32 (s.cycles + 65536), max_seq := seq }
    else
      { s with max_seq := seq }
  else if udelta ≤ 65436 then
    { s with out_of_order := s.out_of_order + 1 }
  else
    { s with out_of_order := s.out_of_order + 1 }

/-- Jitter block of update_stream_stats (rtp_utils.c, lines 790-800):
arrival = packet_time * clock_rate (int32_t, wrapping), transit = arrival -
timestamp (uint32 subtraction stored in int32_t), d = transit - prev_transit,
then jitter += (d - jitter)/16 in double arithmetic (here exact rationals). -/
def statsJitterStep (s : RtpStream) (ts t : Nat) : RtpStream :=
  if s.last_timestamp ≠ ts then
    let arrival := wrap32 ((t : Int) * (s.clock_rate : Int))
    let transit := wrap32 (arrival - (ts : Int))
    let d0 := wrap32 (transit - s.transit)
    let d := if d0 < 0 then -d0 else d0
    { s with transit := transit, jitter := s.jitter + (((d : ℚ) - s.jitter) / 16) }
  else s

/-- update_stream_stats (rtp_utils.c, lines 721-807).  The trailing call to
adapt_jitter_buffer is not modelled: it writes only smoothed_jitter and the
stats.buffer_size_ms / buffer_target_ms fields (none of which any other
modelled function reads), and its double arithmetic divides by the
never-incremented total_packets, producing IEEE NaN/inf values that have no
exact rational counterpart. -/
def update_stream_stats (s0 : RtpStream) (seq ts t : Nat) : RtpStream :=
  let s := { s0 with packets_received := s0.packets_received + 1,
                     last_packet_time_sec := t }
  if s.packets_received = 1 then
    update_quality_metrics (firstPacketInit s seq ts) seq 4
  else if s.probation ≠ 0 then
    probationStep s seq
  else
    let s := seqAdvance s seq
    let extended_seq := u32 (s.cycles + seq)
    let s := { s with received := s.received + 1 }
    let expected := u32sub (extended_seq + 1) s.base_seq
    let s := { s with lost_packets := u32sub expected s.received }
    let s := statsJitterStep s ts t
    let s := { s with last_timestamp := ts }
    update_quality_metrics s seq 4

/-- Transit value computed by update_jitter_metrics (rtp_utils.c, line 966):
packet_time - timestamp*1000/clock_rate, evaluated in uint32 arithmetic
(timestamp*1000 wraps) and stored into an int32_t. -/
def ujmTransit (clock_rate ts t : Nat) : Int :=
  wrap32 ((t : Int) - ((u32 (ts * 1000) / clock_rate : Nat) : Int))

/-- update_jitter_metrics (rtp_utils.c, lines 961-981): the second,
independent jitter estimator run on every packet by process_rtp_packet.
It uses a millisecond-scale transit, then the same 1/16 smoothing as
update_stream_stats; a |d| above clock_rate/100 counts a jitter spike. -/
def update_jitter_metrics (s : RtpStream) (ts t : Nat) : RtpStream :=
  if s.last_timestamp ≠ 0 then
    let transit := ujmTransit s.clock_rate ts t
    let d0 := wrap32 (transit - s.transit)
    let s := { s with transit := transit }
    let d := if d0 < 0 then -d0 else d0
    let s := { s with jitter := s.jitter + (1 / 16 : ℚ) * ((d : ℚ) - s.jitter) }
    if s.clock_rate / 100 < d.toNat then { s with jitter_spikes := s.jitter_spikes + 1 }
    else s
  else s

/-- Per-packet statistics pipeline of process_rtp_packet
(rtp_utils.c, lines 1086-1095): update_jitter_metrics followed by
update_stream_stats.  The intervening handle_silence_insertion call is the
identity on this path: it returns immediately while stream->last_seq = 0,
and last_seq is assigned only inside handle_silence_insertion itself (which
requires last_seq to be nonzero first), so it never becomes nonzero. -/
def rtpStatsPipeline (s : RtpStream) (seq ts t : Nat) : RtpStream :=
  update_stream_stats (update_jitter_metrics s ts t) seq ts t

/-- Feed update_stream_stats a run of strictly consecutive sequence numbers
starting at cur, one packet per (timestamp, arrival-time) pair. -/
def runConsecAux (s : RtpStream) (cur : Nat) : List (Nat × Nat) → RtpStream
  | [] => s
  | (ts, t) :: rest => runConsecAux (update_stream_stats s cur ts t) (cur + 1) rest

/-- The C1 trace: four strictly consecutive packets 100,101,102,103 on a
fresh stream (timestamps all 0 so the jitter block stays inert). -/
def c1Run : RtpStream :=
  runConsecAux freshRtpStream 100 [(0, 0), (0, 0), (0, 0), (0, 0)]

/-- The C2 trace: sequence numbers 65534, 65535, 0, 1, 2 on a fresh stream. -/
def c2Run : RtpStream :=
  update_stream_stats (update_stream_stats (update_stream_stats (update_stream_stats
    (update_stream_stats freshRtpStream 65534 0 0) 65535 0 0) 0 0 0) 1 0 0) 2 0 0

/-!
### Supporting lemmas for the sequence-accounting induction

Projection facts: update_quality_metrics writes only consecutive_losses,
loss_rate and mean_frame_size; statsJitterStep writes only transit and
jitter.
-/

theorem uqm_probation (s : RtpStream) (q z : Nat) :
    (update_quality_metrics s q z).probation = s.probation := rfl

theorem uqm_cycles (s : RtpStream) (q z : Nat) :
    (update_quality_metrics s q z).cycles = s.cycles := rfl

theorem uqm_base_seq (s : RtpStream) (q z : Nat) :
    (update_quality_metrics s q z).base_seq = s.base_seq := rfl

theorem uqm_max_seq (s : RtpStream) (q z : Nat) :
    (update_quality_metrics s q z).max_seq = s.max_seq := rfl

theorem uqm_received (s : RtpStream) (q z : Nat) :
    (update_quality_metrics s q z).received = s.received := rfl

theorem uqm_packets_received (s : RtpStream) (q z : Nat) :
    (update_quality_metrics s q z).packets_received = s.packets_received := rfl

theorem uqm_out_of_order (s : RtpStream) (q z : Nat) :
    (update_quality_metrics s q z).out_of_order = s.out_of_order := rfl

theorem uqm_lost_packets (s : RtpStream) (q z : Nat) :
    (update_quality_metrics s q z).lost_packets = s.lost_packets := rfl

theorem sjs_probation (s : RtpStream) (ts t : Nat) :
    (statsJitterStep s ts t).probation = s.probation := by
  unfold statsJitterStep; split <;> rfl

theorem sjs_cycles (s : RtpStream) (ts t : Nat) :
    (statsJitterStep s ts t).cycles = s.cycles := by
  unfold statsJitterStep; split <;> rfl

theorem sjs_base_seq (s : RtpStream) (ts t : Nat) :
    (statsJitterStep s ts t).base_seq = s.base_seq := by
  unfold statsJitterStep; split <;> rfl

theorem sjs_max_seq (s : RtpStream) (ts t : Nat) :
    (statsJitterStep s ts t).max_seq = s.max_seq := by
  unfold statsJitterStep; split <;> rfl

theorem sjs_received (s : RtpStream) (ts t : Nat) :
    (statsJitterStep s ts t).received = s.received := by
  unfold statsJitterStep; split <;> rfl

theorem sjs_packets_received (s : RtpStream) (ts t : Nat) :
    (statsJitterStep s ts t).packets_received = s.packets_received := by
  unfold statsJitterStep; split <;> rfl

theorem sjs_out_of_order (s : RtpStream) (ts t : Nat) :
    (statsJitterStep s ts t).out_of_order = s.out_of_order := by
  unfold statsJitterStep; split <;> rfl

theorem sjs_lost_packets (s : RtpStream) (ts t : Nat) :
    (statsJitterStep s ts t).lost_packets = s.lost_packets := by
  unfold statsJitterStep; split <;> rfl

theorem u32sub_of_le (a b : Nat) (h : b ≤ a) (h2 : a - b < 4294967296) :
    u32sub a b = a - b := by
  unfold u32sub; omega

theorem u32_small (a : Nat) (h : a < 4294967296) : u32 a = a := by
  unfold u32; omega

/-- Sequence-accounting invariant for a stream that has consumed m >= 4
strictly consecutive packets starting at sequence number start. -/
def ConsecInv (s : RtpStream) (start m : Nat) : Prop :=
  s.probation = 0 ∧ s.cycles = 0 ∧ s.base_seq = start + 2 ∧
  s.max_seq = start + (m - 1) ∧ s.received = m - 3 ∧
  s.packets_received = m ∧ s.out_of_order = 0 ∧ s.lost_packets = 1

theorem uss_first (s : RtpStream) (seq ts t : Nat) (h : s.packets_received = 0) :
    (update_stream_stats s seq ts t).packets_received = 1 ∧
    (update_stream_stats s seq ts t).probation = 2 ∧
    (update_stream_stats s seq ts t).base_seq = seq ∧
    (update_stream_stats s seq ts t).max_seq = seq ∧
    (update_stream_stats s seq ts t).cycles = 0 ∧
    (update_stream_stats s seq ts t).received = 0 ∧
    (update_stream_stats s seq ts t).out_of_order = s.out_of_order ∧
    (update_stream_stats s seq ts t).lost_packets = s.lost_packets := by
  unfold update_stream_stats firstPacketInit
  simp [h, uqm_probation, uqm_cycles, uqm_base_seq, uqm_max_seq, uqm_received,
        uqm_packets_received, uqm_out_of_order, uqm_lost_packets]

theorem uss_probation_noreb (s : RtpStream) (seq ts t : Nat)
    (hp : s.packets_received ≠ 0) (hpr : s.probation = 2) (hseq : seq = s.max_seq + 1) :
    (update_stream_stats s seq ts t).packets_received = s.packets_received + 1 ∧
    (update_stream_stats s seq ts t).probation = 1 ∧
    (update_stream_stats s seq ts t).base_seq = s.base_seq ∧
    (update_stream_stats s seq ts t).max_seq = seq ∧
    (update_stream_stats s seq ts t).cycles = s.cycles ∧
    (update_stream_stats s seq ts t).received = s.received ∧
    (update_stream_stats s seq ts t).out_of_order = s.out_of_order ∧
    (update_stream_stats s seq ts t).lost_packets = s.lost_packets := by
  unfold update_stream_stats probationStep
  have h1 : ¬ (s.packets_received + 1 = 1) := by omega
  simp [h1, hpr, hseq]

theorem uss_probation_rebase (s : RtpStream) (seq ts t : Nat)
    (hp : s.packets_received ≠ 0) (hpr : s.probation = 1) (hseq : seq = s.max_seq + 1) :
    (update_stream_stats s seq ts t).packets_received = s.packets_received + 1 ∧
    (update_stream_stats s seq ts t).probation = 0 ∧
    (update_stream_stats s seq ts t).base_seq = seq ∧
    (update_stream_stats s seq ts t).max_seq = seq ∧
    (update_stream_stats s seq ts t).cycles = s.cycles ∧
    (update_stream_stats s seq ts t).received = 0 ∧
    (update_stream_stats s seq ts t).out_of_order = s.out_of_order ∧
    (update_stream_stats s seq ts t).lost_packets = s.lost_packets := by
  unfold update_stream_stats probationStep
  have h1 : ¬ (s.packets_received + 1 = 1) := by omega
  simp [h1, hpr, hseq]

theorem uss_main_consec (s : RtpStream) (seq ts t : Nat)
    (hp : s.packets_received ≠ 0) (hpr : s.probation = 0)
    (hseq : seq = s.max_seq + 1) (hmax : seq ≤ 65535) (hcy : s.cycles = 0)
    (hb : s.base_seq ≤ seq + 1) (hr : s.received + 1 ≤ seq + 1 - s.base_seq) :
    (update_stream_stats s seq ts t).packets_received = s.packets_received + 1 ∧
    (update_stream_stats s seq ts t).probation = 0 ∧
    (update_stream_stats s seq ts t).base_seq = s.base_seq ∧
    (update_stream_stats s seq ts t).max_seq = seq ∧
    (update_stream_stats s seq ts t).cycles = 0 ∧
    (update_stream_stats s seq ts t).received = s.received + 1 ∧
    (update_stream_stats s seq ts t).out_of_order = s.out_of_order ∧
    (update_stream_stats s seq ts t).lost_packets = (seq + 1 - s.base_seq) - (s.received + 1) := by
  unfold update_stream_stats seqAdvance
  have h1 : ¬ (s.packets_received + 1 = 1) := by omega
  have hud : u16 (seq + 65536 - s.max_seq) = 1 := by unfold u16; omega
  have hnlt : ¬ (seq < s.max_seq) := by omega
  have hext : u32 seq = seq := u32_small _ (by omega)
  have hexp : u32sub (seq + 1) s.base_seq = seq + 1 - s.base_seq :=
    u32sub_of_le _ _ hb (by omega)
  have hlost : u32sub (seq + 1 - s.base_seq) (s.received + 1)
      = (seq + 1 - s.base_seq) - (s.received + 1) :=
    u32sub_of_le _ _ hr (by omega)
  simp [h1, hpr, hud, hnlt, hcy, hext, hexp, hlost,
        uqm_probation, uqm_cycles, uqm_base_seq, uqm_max_seq, uqm_received,
        uqm_packets_received, uqm_out_of_order, uqm_lost_packets,
        sjs_probation, sjs_cycles, sjs_base_seq, sjs_max_seq, sjs_received,
        sjs_packets_received, sjs_out_of_order, sjs_lost_packets]

theorem consec_first_four (start ts1 t1 ts2 t2 ts3 t3 ts4 t4 : Nat)
    (hs : start + 4 ≤ 65536) :
    ConsecInv (update_stream_stats (update_stream_stats (update_stream_stats
      (update_stream_stats freshRtpStream start ts1 t1) (start + 1) ts2 t2)
      (start + 1 + 1) ts3 t3) (start + 1 + 1 + 1) ts4 t4) start 4 := by
  have h0 : freshRtpStream.packets_received = 0 := rfl
  have o0 : freshRtpStream.out_of_order = 0 := rfl
  have l0 : freshRtpStream.lost_packets = 0 := rfl
  obtain ⟨a1, a2, a3, a4, a5, a6, a7, a8⟩ := uss_first freshRtpStream start ts1 t1 h0
  set s1 := update_stream_stats freshRtpStream start ts1 t1 with hs1
  obtain ⟨b1, b2, b3, b4, b5, b6, b7, b8⟩ :=
    uss_probation_noreb s1 (start + 1) ts2 t2 (by omega) a2 (by omega)
  set s2 := update_stream_stats s1 (start + 1) ts2 t2 with hs2
  obtain ⟨c1, c2, c3, c4, c5, c6, c7, c8⟩ :=
    uss_probation_rebase s2 (start + 1 + 1) ts3 t3 (by omega) b2 (by omega)
  set s3 := update_stream_stats s2 (start + 1 + 1) ts3 t3 with hs3
  obtain ⟨d1, d2, d3, d4, d5, d6, d7, d8⟩ :=
    uss_main_consec s3 (start + 1 + 1 + 1) ts4 t4 (by omega) c2 (by omega)
      (by omega) (by omega) (by omega) (by omega)
  refine ⟨d2, ?_, ?_, ?_, ?_, ?_, ?_, ?_⟩ <;> omega

theorem consec_inv_step (s : RtpStream) (start m ts t : Nat) (h4 : 4 ≤ m)
    (hinv : ConsecInv s start m) (hm : start + m ≤ 65535) :
    ConsecInv (update_stream_stats s (start + m) ts t) start (m + 1) := by
  obtain ⟨hpr, hcy, hb, hmax, hrecv, hpkts, hooo, hlost⟩ := hinv
  obtain ⟨d1, d2, d3, d4, d5, d6, d7, d8⟩ :=
    uss_main_consec s (start + m) ts t (by omega) hpr (by omega) (by omega) hcy
      (by omega) (by omega)
  refine ⟨d2, d5, ?_, ?_, ?_, ?_, ?_, ?_⟩ <;> omega

theorem consec_inv_run (tts : List (Nat × Nat)) : ∀ (s : RtpStream) (start m : Nat),
    4 ≤ m → ConsecInv s start m → start + m + tts.length ≤ 65536 →
    ConsecInv (runConsecAux s (start + m) tts) start (m + tts.length) := by
  induction tts with
  | nil =>
    intro s start m h4 hinv _
    simpa [runConsecAux] using hinv
  | cons p rest ih =>
    intro s start m h4 hinv hlen
    obtain ⟨ts, t⟩ := p
    have hlen' : rest.length + 1 = (((ts, t) : Nat × Nat) :: rest).length := by simp
    have hstep := consec_inv_step s start m ts t h4 hinv (by omega)
    have hrec := ih (update_stream_stats s (start + m) ts t) start (m + 1)
      (by omega) hstep (by omega)
    have e1 : start + (m + 1) = start + m + 1 := by omega
    rw [e1] at hrec
    have e2 : m + 1 + rest.length = m + (((ts, t) : Nat × Nat) :: rest).length := by
      simp; omega
    rw [e2] at hrec
    exact hrec

/-- C1 (amended).  Feeding a fresh stream N >= 4 packets with strictly
consecutive sequence numbers (no 16-bit wrap inside the run) through
update_stream_stats yields packets_received = N and out_of_order = 0, but the
RFC-style received counter equals N - 3 and lost equals 1: probation consumes
the first three packets, and the probation-ending packet rebases base_seq
without itself being counted in received (rtp_utils.c lines 745-760 lack the
received increment RFC 3550 A.1 performs there), leaving a permanent
off-by-one in lost = expected - received. -/
theorem C1_sequence_accounting (start : Nat) (tts : List (Nat × Nat))
    (h4 : 4 ≤ tts.length) (hrange : start + tts.length ≤ 65536) :
    (runConsecAux freshRtpStream start tts).packets_received = tts.length ∧
    (runConsecAux freshRtpStream start tts).out_of_order = 0 ∧
    (runConsecAux freshRtpStream start tts).received = tts.length - 3 ∧
    (runConsecAux freshRtpStream start tts).lost_packets = 1 := by
  rcases tts with _ | ⟨⟨ts1, t1⟩, _ | ⟨⟨ts2, t2⟩, _ | ⟨⟨ts3, t3⟩, _ | ⟨⟨ts4, t4⟩, rest⟩⟩⟩⟩
  · simp at h4
  · simp at h4
  · simp at h4
  · simp at h4
  · have hlen : ((ts1, t1) :: (ts2, t2) :: (ts3, t3) :: (ts4, t4) :: rest).length
        = rest.length + 4 := by simp
    have hbase := consec_first_four start ts1 t1 ts2 t2 ts3 t3 ts4 t4 (by omega)
    have hrun := consec_inv_run rest _ start 4 (by omega) hbase (by omega)
    obtain ⟨i1, i2, i3, i4, i5, i6, i7, i8⟩ := hrun
    simp only [runConsecAux]
    have e : start + 1 + 1 + 1 + 1 = start + 4 := by omega
    rw [e]
    refine ⟨?_, ?_, ?_, ?_⟩ <;> omega

/-- C1 witness instantiation: the amended statement at start = 100 with five
packets. -/
theorem C1_sequence_accounting_witness :
    (runConsecAux freshRtpStream 100 [(0, 0), (5, 1), (9, 2), (13, 3), (17, 4)]).packets_received
      = [((0 : Nat), (0 : Nat)), (5, 1), (9, 2), (13, 3), (17, 4)].length ∧
    (runConsecAux freshRtpStream 100 [(0, 0), (5, 1), (9, 2), (13, 3), (17, 4)]).out_of_order = 0 ∧
    (runConsecAux freshRtpStream 100 [(0, 0), (5, 1), (9, 2), (13, 3), (17, 4)]).received
      = [((0 : Nat), (0 : Nat)), (5, 1), (9, 2), (13, 3), (17, 4)].length - 3 ∧
    (runConsecAux freshRtpStream 100 [(0, 0), (5, 1), (9, 2), (13, 3), (17, 4)]).lost_packets = 1 :=
  C1_sequence_accounting 100 [(0, 0), (5, 1), (9, 2), (13, 3), (17, 4)]
    (by decide) (by decide)

/-- C1 counterexample: after four strictly consecutive packets 100..103 the
stream does not satisfy received = 4, lost = 0, out_of_order = 0 as the claim
states (the run ends with received = 1 and lost = 1). -/
theorem C1_counterexample :
    ¬ (c1Run.received = 4 ∧ c1Run.lost_packets = 0 ∧ c1Run.out_of_order = 0) := by
  decide

/-- C2 (amended).  Feeding the sequence numbers 65534, 65535, 0, 1, 2 to
update_stream_stats on a fresh stream yields cycles = 0 (no 2^16 wrap is
recorded) and lost = 1, not cycles = 1 and lost = 0: the wrap arrives while
the stream is still in probation, where the consecutive-packet comparison
seq == max_seq + 1 is performed after integer promotion (0 vs 65536), so
probation resets at seq 0, the stream rebases at seq 1, and the cycle counter
is never touched; the rebasing packet is also not counted in received, so
lost ends at 1. -/
theorem C2_wrap_behavior :
    c2Run.cycles = 0 ∧ c2Run.lost_packets = 1 ∧ c2Run.received = 1 ∧
    c2Run.out_of_order = 0 ∧ c2Run.packets_received = 5 ∧ c2Run.base_seq = 1 := by
  decide

/-- C2 counterexample: the 65534, 65535, 0, 1, 2 run does not produce
lost = 0 with one recorded 2^16 cycle (the code adds RTP_SEQ_MOD = 65536 to
the cycles accumulator per wrap, so one recorded wrap means cycles = 65536). -/
theorem C2_counterexample :
    ¬ (c2Run.lost_packets = 0 ∧ c2Run.cycles = 65536) := by
  decide

/-!
### C7: jitter smoothing

The per-packet pipeline applies two smoothing steps with transit values in
different units.  The concrete trace below feeds packets with perfectly
constant inter-arrival transit: arrival time advances 1 second per packet
and the RTP timestamp advances 8000 ticks per packet at clock rate 8000.
-/

theorem wrap32_zero : wrap32 0 = 0 := by decide

/-- Iterated application of update_jitter_metrics with a fixed
(timestamp, arrival-time) pair. -/
def iterUjm : Nat → RtpStream → Nat → Nat → RtpStream
  | 0, s, _, _ => s
  | n + 1, s, ts, t => iterUjm n (update_jitter_metrics s ts t) ts t

theorem ujm_fixed_step (s : RtpStream) (ts t : Nat) (h0 : s.last_timestamp ≠ 0)
    (ht : s.transit = ujmTransit s.clock_rate ts t) :
    (update_jitter_metrics s ts t).jitter = (15 / 16 : ℚ) * s.jitter ∧
    (update_jitter_metrics s ts t).transit = s.transit ∧
    (update_jitter_metrics s ts t).last_timestamp = s.last_timestamp ∧
    (update_jitter_metrics s ts t).clock_rate = s.clock_rate := by
  unfold update_jitter_metrics
  rw [if_pos h0, ← ht]
  simp only [sub_self, wrap32_zero, lt_irrefl, if_false, Int.toNat_zero,
             Nat.not_lt_zero]
  refine ⟨?_, ?_, ?_, ?_⟩
  · push_cast
    ring
  · trivial
  · trivial
  · trivial

/-- One step of the C7 constant-transit pipeline trace: packet k carries
sequence 1000 + k, RTP timestamp 8000 k, arrival second k, so the arrival
clock advances exactly one second per packet and the RTP clock advances
exactly 8000 ticks per packet at clock rate 8000: the inter-arrival transit
is perfectly constant. -/
def c7Step (s : RtpStream) (k : Nat) : RtpStream :=
  rtpStatsPipeline s (1000 + k) (8000 * k) k

def c7s1 : RtpStream := c7Step freshRtpStream 0
def c7s2 : RtpStream := c7Step c7s1 1
def c7s3 : RtpStream := c7Step c7s2 2
def c7s4 : RtpStream := c7Step c7s3 3
def c7s5 : RtpStream := c7Step c7s4 4

theorem c7s1_eval : c7s1 =
    { packets_received := 1, base_seq := 1000,
      max_seq := 1000, bad_seq := 1001, mean_frame_size := 4 } := by
  norm_num [c7s1, c7Step, rtpStatsPipeline, update_stream_stats,
    update_jitter_metrics, ujmTransit, statsJitterStep, seqAdvance,
    probationStep, firstPacketInit, update_quality_metrics, u16, u32, u32sub,
    wrap32, freshRtpStream]

theorem c7s2_eval : c7s2 =
    { packets_received := 2, base_seq := 1000,
      max_seq := 1001, bad_seq := 1001, mean_frame_size := 4, probation := 1,
      last_packet_time_sec := 1 } := by
  rw [c7s2, c7s1_eval]
  norm_num [c7Step, rtpStatsPipeline, update_stream_stats,
    update_jitter_metrics, ujmTransit, statsJitterStep, seqAdvance,
    probationStep, firstPacketInit, update_quality_metrics, u16, u32, u32sub,
    wrap32]

theorem c7s3_eval : c7s3 =
    { packets_received := 3, base_seq := 1002,
      max_seq := 1002, bad_seq := 1001, mean_frame_size := 4, probation := 0,
      last_packet_time_sec := 2, received := 0 } := by
  rw [c7s3, c7s2_eval]
  norm_num [c7Step, rtpStatsPipeline, update_stream_stats,
    update_jitter_metrics, ujmTransit, statsJitterStep, seqAdvance,
    probationStep, firstPacketInit, update_quality_metrics, u16, u32, u32sub,
    wrap32]

theorem c7s4_eval : c7s4 =
    { packets_received := 4, base_seq := 1002,
      max_seq := 1003, bad_seq := 1001, mean_frame_size := 4, probation := 0,
      last_packet_time_sec := 3, received := 1, lost_packets := 1,
      last_timestamp := 24000, transit := 0, jitter := 0,
      loss_rate := 1 / 500 } := by
  rw [c7s4, c7s3_eval]
  norm_num [c7Step, rtpStatsPipeline, update_stream_stats,
    update_jitter_metrics, ujmTransit, statsJitterStep, seqAdvance,
    probationStep, firstPacketInit, update_quality_metrics, u16, u32, u32sub,
    wrap32]

theorem c7s5_eval : c7s5 =
    { packets_received := 5, base_seq := 1002,
      max_seq := 1004, bad_seq := 1001, mean_frame_size := 4, probation := 0,
      last_packet_time_sec := 4, received := 2, lost_packets := 1,
      last_timestamp := 32000, transit := 0, jitter := 30969 / 64,
      loss_rate := 547 / 150000, jitter_spikes := 1 } := by
  rw [c7s5, c7s4_eval]
  norm_num [c7Step, rtpStatsPipeline, update_stream_stats,
    update_jitter_metrics, ujmTransit, statsJitterStep, seqAdvance,
    probationStep, firstPacketInit, update_quality_metrics, u16, u32, u32sub,
    wrap32]

/-- C7 counterexample: on a stream whose packets have perfectly constant
inter-arrival transit (arrival advances 1 s and RTP timestamp advances 8000
ticks per packet at clock rate 8000), the jitter estimate after the fifth
processed packet is 30969/64, not 15/16 of the estimate after the fourth
(which is 0): per packet the pipeline runs one smoothing step inside
update_jitter_metrics (millisecond-scale transit) and a second one inside
update_stream_stats (clock-tick-scale transit), so the stored transit
alternates between incompatible scales and the computed d does not stay 0. -/
theorem C7_counterexample :
    ¬ (c7s5.jitter = (15 / 16 : ℚ) * c7s4.jitter) := by
  rw [c7s5_eval, c7s4_eval]
  norm_num

/-- C7 (amended).  Each individual smoothing step computes
jitter := jitter + (d - jitter)/16, so whenever a step sees d = 0 it scales
jitter by exactly 15/16; in particular iterating update_jitter_metrics with a
fixed (timestamp, arrival) pair, once the stored transit equals that pair's
transit, decays the jitter geometrically as (15/16)^n.  Per packet of
process_rtp_packet, however, two such steps run with transits in different
units, so the per-processed-packet ratio is not 15/16 (see the
counterexample). -/
theorem C7_jitter_decay : ∀ (n : Nat) (s : RtpStream) (ts t : Nat),
    s.last_timestamp ≠ 0 → s.transit = ujmTransit s.clock_rate ts t →
    (iterUjm n s ts t).jitter = (15 / 16 : ℚ) ^ n * s.jitter := by
  intro n
  induction n with
  | zero => intro s ts t _ _; simp [iterUjm]
  | succ k ih =>
    intro s ts t h0 ht
    obtain ⟨hj, htr, hlt, hcr⟩ := ujm_fixed_step s ts t h0 ht
    have hrec := ih (update_jitter_metrics s ts t) ts t (by rw [hlt]; exact h0)
      (by rw [htr, hcr]; exact ht)
    rw [iterUjm, hrec, hj]
    ring

/-- Concrete stream for the C7 witness: stored transit already equal to the
fixed pair's transit, jitter 16. -/
def c7WitnessStream : RtpStream :=
  { freshRtpStream with
      last_timestamp := 1,
      transit := ujmTransit 8000 8000 7,
      jitter := 16 }

/-- C7 witness instantiation: three iterations starting from
c7WitnessStream, giving (15/16)^3 * 16. -/
theorem C7_jitter_decay_witness :
    (iterUjm 3 c7WitnessStream 8000 7).jitter = (15 / 16 : ℚ) ^ 3 * (16 : ℚ) :=
  C7_jitter_decay 3 c7WitnessStream 8000 7 (by decide) rfl

/-!
## Audio quality engine (src/src/audio/audio_quality.c)

Jitter buffer and sequence history.  A packet's payload bytes, energy level
and voice-activity flag play no role in buffer placement or dequeuing, so
only the fields that insert_packet_with_timing and
audio_quality_get_next_packet read are modelled; payload bytes are
represented by their size.  MAX_JITTER_BUFFER_PACKETS = 1000
(audio_quality.h).  Configuration values are those of default_config
(audio_quality.c lines 66-96): target_delay_ms = 40, max_delay_ms = 100,
jitter_factor = 1.5, sample_rate = 48000.
-/

structure AudioPacket where
  payload_size : Nat := 0
  timestamp : Nat := 0
  sequence : Nat := 0
  original_sequence : Nat := 0
  arrival_time : Int := 0
  expected_play_time : Int := 0
  is_fec_packet : Bool := false
deriving DecidableEq

/-- The audio-quality context fields read or written by the jitter-buffer
path.  ctx->stats.current_jitter is never assigned anywhere in the sources,
so it keeps its calloc value 0; it still appears here because
insert_packet_with_timing branches on it. -/
structure JitterBuf where
  buffer : List AudioPacket := List.replicate 1000 {}
  buffer_size : Nat := 0
  read_ptr : Nat := 0
  write_ptr : Nat := 0
  packets_lost : Nat := 0
  current_jitter : ℚ := 0
  plc_used : Bool := false
  plc_duration_ms : Nat := 0
  target_delay_ms : Nat := 40
  max_delay_ms : Nat := 100
  jitter_factor : ℚ := 3 / 2
  sample_rate : Nat := 48000
deriving DecidableEq

/-- Context as produced by audio_quality_init_with_config: calloc'd zeroes
with the default configuration. -/
def jbInit : JitterBuf := {}

/-- Truncation toward zero of a rational, modelling a C (int) cast applied
to a floating-point value. -/
def ratTrunc (q : ℚ) : Int := q.num / (q.den : Int)

/-- Insertion-point search of insert_packet_with_timing (audio_quality.c,
lines 156-163): first occupied slot, scanning from read_ptr, whose
expected_play_time exceeds the new packet's; none if no such slot. -/
def findInsertPosAux (buf : List AudioPacket) (ept : Int) (read_ptr : Nat) :
    Nat → Nat → Option Nat
  | 0, _ => none
  | fuel + 1, i =>
    let idx := (read_ptr + i) % 1000
    if ept < (buf.getD idx {}).expected_play_time then some idx
    else findInsertPosAux buf ept read_ptr fuel (i + 1)

/-- Shift loop of insert_packet_with_timing (audio_quality.c, lines 177-181):
for i = move_end - 1 downto move_start, buffer[(i+1) % 1000] = buffer[i % 1000].
The fuel argument is move_end - move_start. -/
def shiftLoop (buf : List AudioPacket) (move_start : Nat) : Nat → List AudioPacket
  | 0 => buf
  | k + 1 =>
    let i := move_start + k
    let buf2 := buf.set ((i + 1) % 1000) (buf.getD (i % 1000) {})
    shiftLoop buf2 move_start k

/-- insert_packet_with_timing (audio_quality.c, lines 138-192).  Returns the
C result code and the updated context.  The C function also mutates the
caller's packet (its expected_play_time); that value is the one inserted. -/
def insert_packet_with_timing (ctx : JitterBuf) (pkt0 : AudioPacket) :
    Int × JitterBuf :=
  let now := pkt0.arrival_time
  let target_delay : Int := (ctx.target_delay_ms : Int) * 1000
  let pkt := { pkt0 with expected_play_time := now + target_delay }
  let pkt :=
    if 0 < ctx.current_jitter then
      let jitter_delay := ctx.current_jitter * ctx.jitter_factor
      let max_delay : Int := (ctx.max_delay_ms : Int) * 1000
      let adjusted := ratTrunc ((target_delay : ℚ) + jitter_delay)
      let adjusted := if max_delay < adjusted then max_delay else adjusted
      { pkt with expected_play_time := now + adjusted }
    else pkt
  let insert_pos :=
    (findInsertPosAux ctx.buffer pkt.expected_play_time ctx.read_ptr
       ctx.buffer_size 0).getD ctx.write_ptr
  if 1000 ≤ ctx.buffer_size then
    (-1, { ctx with packets_lost := ctx.packets_lost + 1 })
  else
    let ctx1 :=
      if 0 < ctx.buffer_size ∧ insert_pos ≠ ctx.write_ptr then
        let move_end := if ctx.write_ptr < insert_pos then ctx.write_ptr + 1000
                        else ctx.write_ptr
        { ctx with buffer := shiftLoop ctx.buffer insert_pos (move_end - insert_pos) }
      else ctx
    let ctx2 := { ctx1 with buffer := ctx1.buffer.set insert_pos pkt }
    let ctx3 := if insert_pos = ctx2.write_ptr
                then { ctx2 with write_ptr := (ctx2.write_ptr + 1) % 1000 }
                else ctx2
    (0, { ctx3 with buffer_size := ctx3.buffer_size + 1 })

/-- is_packet_too_late (audio_quality.c, lines 599-608): the packet's RTP
timestamp converted to microseconds at the configured sample rate is compared
with the current time against max_delay_ms. -/
def is_packet_too_late (ctx : JitterBuf) (timestamp : Nat) (current_time : Int) :
    Bool :=
  let timestamp_us : Int := ((timestamp * 1000000 / ctx.sample_rate : Nat) : Int)
  decide ((ctx.max_delay_ms : Int) * 1000 < current_time - timestamp_us)

/-- audio_quality_get_next_packet (audio_quality.c, lines 466-514).  Returns
the C return value, the updated context, and the dequeued packet (none when
the head is not returned: buffer empty, head too early, or head too late in
which case concealment output of frame_size * 2 bytes is produced instead
and the head packet is left in place).  The PLC sample synthesis and the
prev_samples bookkeeping write only into caller buffers and
ctx->prev_samples, which no modelled observation reads. -/
def audio_quality_get_next_packet (ctx : JitterBuf) (max_size : Nat)
    (current_time : Int) : Int × JitterBuf × Option AudioPacket :=
  if ctx.buffer_size = 0 then (0, ctx, none)
  else
    let next := ctx.buffer.getD ctx.read_ptr {}
    if current_time < next.expected_play_time then (0, ctx, none)
    else if is_packet_too_late ctx next.timestamp current_time then
      let concealed : Int := ((ctx.sample_rate / 50 * 2 : Nat) : Int)
      (concealed,
       { ctx with packets_lost := ctx.packets_lost + 1, plc_used := true,
                  plc_duration_ms := ctx.plc_duration_ms + 20 }, none)
    else
      let copy_size : Int := ((min next.payload_size max_size : Nat) : Int)
      (copy_size,
       { ctx with read_ptr := (ctx.read_ptr + 1) % 1000,
                  buffer_size := ctx.buffer_size - 1 },
       some next)

/-- Occupied region of the jitter buffer, in dequeue order. -/
def bufContents (ctx : JitterBuf) : List AudioPacket :=
  (List.range ctx.buffer_size).map
    (fun i => ctx.buffer.getD ((ctx.read_ptr + i) % 1000) {})

/-!
### C3 trace

Three packets inserted into a fresh buffer.  With current_jitter = 0 every
expected_play_time is arrival_time + 40000 us.  Timestamps are 0 and the
dequeue time is 90000 us, within the 100 ms lateness bound of every slot.
-/

def c3pktA : AudioPacket :=
  { payload_size := 10, timestamp := 0, sequence := 1, arrival_time := 40000 }

def c3pktB : AudioPacket :=
  { payload_size := 10, timestamp := 0, sequence := 2, arrival_time := 10000 }

def c3pktC : AudioPacket :=
  { payload_size := 10, timestamp := 0, sequence := 3, arrival_time := 20000 }

def c3ctx : JitterBuf :=
  (insert_packet_with_timing (insert_packet_with_timing
    (insert_packet_with_timing jbInit c3pktA).2 c3pktB).2 c3pktC).2

def c3deq1 : Int × JitterBuf × Option AudioPacket :=
  audio_quality_get_next_packet c3ctx 2000 90000

def c3deq2 : Int × JitterBuf × Option AudioPacket :=
  audio_quality_get_next_packet c3deq1.2.1 2000 90000

def c3deq3 : Int × JitterBuf × Option AudioPacket :=
  audio_quality_get_next_packet c3deq2.2.1 2000 90000

/-- C3: inserting packets with expected play times 80000, 50000, 60000 (in
that order) leaves the occupied region reading 50000, 60000, 0 - the 80000
packet has been overwritten (the shift path never advances write_ptr, so the
next insert lands on a live slot) and a never-inserted all-zero slot is
counted as content - and the three dequeues return expected play times
50000, 60000, 0, which is not non-decreasing. -/
theorem C3_buffer_order :
    (bufContents c3ctx).map AudioPacket.expected_play_time = [50000, 60000, 0] ∧
    c3deq1.2.2.map AudioPacket.expected_play_time = some 50000 ∧
    c3deq2.2.2.map AudioPacket.expected_play_time = some 60000 ∧
    c3deq3.2.2.map AudioPacket.expected_play_time = some 0 ∧
    ¬ ((60000 : Int) ≤ 0) := by
  decide

/-- C8.  When the jitter buffer is full (buffer_size = 1000 =
MAX_JITTER_BUFFER_PACKETS), insertion returns -1, increments
stats.packets_lost by exactly one, and leaves the buffer contents, the
buffer size and both pointers untouched: the overflow check sits before any
mutation of the context. -/
theorem C8_overflow_atomic (ctx : JitterBuf) (pkt : AudioPacket)
    (hfull : ctx.buffer_size = 1000) :
    (insert_packet_with_timing ctx pkt).1 = -1 ∧
    (insert_packet_with_timing ctx pkt).2.buffer = ctx.buffer ∧
    (insert_packet_with_timing ctx pkt).2.buffer_size = ctx.buffer_size ∧
    (insert_packet_with_timing ctx pkt).2.read_ptr = ctx.read_ptr ∧
    (insert_packet_with_timing ctx pkt).2.write_ptr = ctx.write_ptr ∧
    (insert_packet_with_timing ctx pkt).2.packets_lost = ctx.packets_lost + 1 := by
  unfold insert_packet_with_timing
  simp [hfull]

def c8FullCtx : JitterBuf := { buffer_size := 1000 }

def c8Pkt : AudioPacket :=
  { payload_size := 10, timestamp := 0, sequence := 7, arrival_time := 1000 }

/-- C8 witness: the overflow theorem applied to a concrete full context. -/
theorem C8_overflow_atomic_witness :
    (insert_packet_with_timing c8FullCtx c8Pkt).1 = -1 ∧
    (insert_packet_with_timing c8FullCtx c8Pkt).2.buffer = c8FullCtx.buffer ∧
    (insert_packet_with_timing c8FullCtx c8Pkt).2.buffer_size = c8FullCtx.buffer_size ∧
    (insert_packet_with_timing c8FullCtx c8Pkt).2.read_ptr = c8FullCtx.read_ptr ∧
    (insert_packet_with_timing c8FullCtx c8Pkt).2.write_ptr = c8FullCtx.write_ptr ∧
    (insert_packet_with_timing c8FullCtx c8Pkt).2.packets_lost = c8FullCtx.packets_lost + 1 :=
  C8_overflow_atomic c8FullCtx c8Pkt rfl

/-!
### C6: sequence-history duplicate detection

The detection machinery (init_sequence_history, is_sequence_out_of_order)
exists, but audio_quality_init_with_config (audio_quality.c, lines 343-382)
never calls init_sequence_history: it calloc's the context and initialises
the codec, the jitter buffer and the audio profiles only, so
ctx->sequence_history stays NULL and every duplicate check short-circuits to
false.
-/

structure SeqHistory where
  sequences : List Nat
  size : Nat
  head : Nat
  count : Nat
deriving DecidableEq

/-- init_sequence_history (audio_quality.c, lines 99-113): ring of the given
size, calloc'd to zero, empty. -/
def init_sequence_history (size : Nat) : SeqHistory :=
  { sequences := List.replicate size 0, size := size, head := 0, count := 0 }

/-- is_sequence_out_of_order (audio_quality.c, lines 116-135).  A NULL
history returns false without recording anything; otherwise the ring of the
count most recent entries is searched, a hit returns true without recording,
and a miss records the new sequence. -/
def is_sequence_out_of_order :
    Option SeqHistory → Nat → Bool × Option SeqHistory
  | none, _ => (false, none)
  | some h, sequence =>
    let isDup := (List.range h.count).any
      (fun i => h.sequences.getD ((h.head + h.size - (i + 1)) % h.size) 0 == sequence)
    if isDup then (true, some h)
    else
      (false, some { h with
        sequences := h.sequences.set h.head sequence,
        head := (h.head + 1) % h.size,
        count := if h.count < h.size then h.count + 1 else h.count })

/-- The audio-quality context fields touched by the sequence-handling prefix
of audio_quality_process_packet. -/
structure AudioSeqCtx where
  sequence_history : Option SeqHistory := none
  last_sequence : Nat := 0
  packets_lost : Nat := 0
deriving DecidableEq

/-- Context as left by audio_quality_init_with_config: sequence_history is
the calloc value NULL, because the function never calls
init_sequence_history (the config's sequence_history_size = 32 is unused). -/
def audioSeqCtxInit : AudioSeqCtx := {}

/-- Sequence-handling prefix of audio_quality_process_packet
(audio_quality.c, lines 400-406): on a duplicate, packets_lost is bumped and
the packet sequence is relabelled to last_sequence + 1 (uint16); the
possibly-relabelled sequence becomes last_sequence and is what the rest of
the function (Opus encode, buffer insertion) sees.  Returns the updated
context and that sequence. -/
def audio_process_seq (ctx0 : AudioSeqCtx) (sequence : Nat) : AudioSeqCtx × Nat :=
  let r := is_sequence_out_of_order ctx0.sequence_history sequence
  let ctx := { ctx0 with sequence_history := r.2 }
  let p := if r.1 then
      ({ ctx with packets_lost := ctx.packets_lost + 1 }, u16 (ctx.last_sequence + 1))
    else (ctx, sequence)
  ({ p.1 with last_sequence := p.2 }, p.2)

def c6FirstCall : AudioSeqCtx × Nat := audio_process_seq audioSeqCtxInit 500

def c6SecondCall : AudioSeqCtx × Nat := audio_process_seq c6FirstCall.1 500

/-- The same two deliveries against a context whose history ring was
actually created with init_sequence_history(32), as the design intends. -/
def c6HistCtx : AudioSeqCtx := { sequence_history := some (init_sequence_history 32) }

def c6HistFirst : AudioSeqCtx × Nat := audio_process_seq c6HistCtx 500

def c6HistSecond : AudioSeqCtx × Nat := audio_process_seq c6HistFirst.1 500

/-- C6: delivering seq 500 twice to a context built by
audio_quality_init_with_config leaves the duplicate undetected - the check
returns false (sequence_history is NULL), packets_lost stays 0 and the
packet keeps sequence 500 - whereas on a context whose history ring was
initialised the second delivery is detected, packets_lost becomes 1 and the
packet is relabelled to last_sequence + 1 = 501, which is what the claim
(and spec section 8 scenario 7) describes. -/
theorem C6_duplicate_detection :
    (is_sequence_out_of_order c6FirstCall.1.sequence_history 500).1 = false ∧
    c6SecondCall.1.packets_lost = 0 ∧
    c6SecondCall.2 = 500 ∧
    (is_sequence_out_of_order c6HistFirst.1.sequence_history 500).1 = true ∧
    c6HistSecond.1.packets_lost = 1 ∧
    c6HistSecond.2 = 501 := by
  decide

/-!
## NAT64 helper (src/src/network/nat64_utils.c) and stream lookup

Addresses are lists of characters (the C code holds them in
INET6_ADDRSTRLEN = 46 byte buffers and compares with strcmp/strncmp).
-/

def nat64Prefixes : List (List Char) :=
  ["64:ff9b::".data, "64:ff9b:1::".data, "2001:db8:64::".data]

/-- is_nat64_address (nat64_utils.c, lines 34-53): strncmp against the three
known prefixes. -/
def is_nat64_address (addr : List Char) : Bool :=
  nat64Prefixes.any (fun p => p.isPrefixOf addr)

def hexDigitVal (c : Char) : Option Nat :=
  if '0' ≤ c ∧ c ≤ '9' then some (c.toNat - 48)
  else if 'a' ≤ c ∧ c ≤ 'f' then some (c.toNat - 87)
  else if 'A' ≤ c ∧ c ≤ 'F' then some (c.toNat - 55)
  else none

/-- One sscanf %02x conversion: greedily read one or two hex digits.  The
whitespace-skipping and 0x-prefix corner cases of scanf cannot arise in the
address texts produced by inet_ntop (hex digits and colons only). -/
def scanHex2 : List Char → Option (Nat × List Char)
  | [] => none
  | c :: rest =>
    match hexDigitVal c with
    | none => none
    | some v1 =>
      match rest with
      | c2 :: rest2 =>
        match hexDigitVal c2 with
        | some v2 => some (16 * v1 + v2, rest2)
        | none => some (v1, rest)
      | [] => some (v1, [])

/-- sscanf(last_part, "%02x%02x:%02x%02x", ...) == 4 (nat64_utils.c,
line 83): two hex pairs, a literal colon, two more hex pairs. -/
def scanIPv4Groups (cs : List Char) : Option (Nat × Nat × Nat × Nat) :=
  match scanHex2 cs with
  | none => none
  | some (a, r1) =>
    match scanHex2 r1 with
    | none => none
    | some (b, r2) =>
      match r2 with
      | ':' :: r3 =>
        match scanHex2 r3 with
        | none => none
        | some (c, r4) =>
          match scanHex2 r4 with
          | none => none
          | some (d, _) => some (a, b, c, d)
      | _ => none

/-- strrchr(addr, ':') + 1 (nat64_utils.c, lines 77-79): the text after the
last colon, or none when the address has no colon. -/
def afterLastColon (cs : List Char) : Option (List Char) :=
  if cs.contains ':' then some ((cs.reverse.takeWhile (fun c => c != ':')).reverse)
  else none

def decDigit (n : Nat) : Char := Char.ofNat (48 + n)

/-- snprintf %u for one octet (values from %02x are at most 255). -/
def decOctet (n : Nat) : List Char :=
  if n < 10 then [decDigit n]
  else if n < 100 then [decDigit (n / 10), decDigit (n % 10)]
  else [decDigit (n / 100), decDigit (n / 10 % 10), decDigit (n % 10)]

/-- extract_ipv4_from_nat64 (nat64_utils.c, lines 70-89): take the text after
the LAST colon and scan it as "%02x%02x:%02x%02x"; on success format the four
octets as a dotted quad.  (The caller-supplied buffer is at least
INET_ADDRSTRLEN bytes in every call site, so the buf_size guard passes and is
not modelled.) -/
def extract_ipv4_from_nat64 (addr : List Char) : Option (List Char) :=
  if ¬ is_nat64_address addr then none
  else
    match afterLastColon addr with
    | none => none
    | some last_part =>
      match scanIPv4Groups last_part with
      | none => none
      | some (a, b, c, d) =>
        some (decOctet a ++ '.' :: decOctet b ++ '.' :: decOctet c ++ '.' :: decOctet d)

/-- addresses_match (rtp_utils.c, lines 572-608): direct equality, else
NAT64 extraction on whichever side is NAT64 (failure of extraction means no
match) and comparison of the results; a non-NAT64 side is strncpy'd into an
INET_ADDRSTRLEN buffer, i.e. truncated to 15 characters. -/
def addresses_match (addr1 addr2 : List Char) : Bool :=
  if addr1 = addr2 then true
  else
    let a64 := is_nat64_address addr1
    let b64 := is_nat64_address addr2
    if ¬ a64 ∧ ¬ b64 then false
    else
      match (if a64 then extract_ipv4_from_nat64 addr1 else some (addr1.take 15)) with
      | none => false
      | some v1 =>
        match (if b64 then extract_ipv4_from_nat64 addr2 else some (addr2.take 15)) with
        | none => false
        | some v2 => v1 == v2

/-- Identity fields of struct rtp_stream used by stream lookup; the
statistics bundle is modelled separately as RtpStream (lookup never reads
it).  Address copies are strncpy'd into 46-byte buffers, i.e. truncated to
45 characters. -/
structure StreamSlot where
  active : Bool := false
  ssrc : Nat := 0
  payload_type : Nat := 0
  direction : Nat := 0
  src_ip : List Char := []
  src_port : Nat := 0
  dst_ip : List Char := []
  dst_port : Nat := 0
  nat64_ip : List Char := []
  nat64_port : Nat := 0
deriving DecidableEq

/-- NAT64 bookkeeping applied to a matched stream (rtp_utils.c,
lines 641-648). -/
def applyNat64Update (st : StreamSlot) (src_ip : List Char) (src_port : Nat)
    (dst_ip : List Char) (dst_port : Nat) : StreamSlot :=
  if is_nat64_address src_ip ∧ ¬ is_nat64_address st.src_ip then
    { st with nat64_ip := src_ip.take 45, nat64_port := src_port }
  else if is_nat64_address dst_ip ∧ ¬ is_nat64_address st.dst_ip then
    { st with nat64_ip := dst_ip.take 45, nat64_port := dst_port }
  else st

/-- find_or_create_stream (rtp_utils.c, lines 629-705), restricted to the
identity fields: search for an active slot matching (ssrc, direction,
src, dst) under addresses_match; on a match apply the NAT64 field update; on
a miss initialise the first inactive slot (statistics zeroing and
init_quality_params touch only the statistics bundle).  Returns the slot
index used and the updated table, or none when all 8 slots are active. -/
def find_or_create_stream (streams : List StreamSlot) (src_ip : List Char)
    (src_port : Nat) (dst_ip : List Char) (dst_port : Nat)
    (ssrc pt direction : Nat) : Option (Nat × List StreamSlot) :=
  match streams.findIdx? (fun st => st.active && st.ssrc == ssrc &&
      st.direction == direction && addresses_match st.src_ip src_ip &&
      addresses_match st.dst_ip dst_ip) with
  | some i =>
    some (i, streams.set i
      (applyNat64Update (streams.getD i {}) src_ip src_port dst_ip dst_port))
  | none =>
    match streams.findIdx? (fun st => !st.active) with
    | some i =>
      let st : StreamSlot :=
        { active := true, ssrc := ssrc, payload_type := pt,
          direction := direction,
          src_ip := src_ip.take 45, src_port := src_port,
          dst_ip := dst_ip.take 45, dst_port := dst_port,
          nat64_ip := if is_nat64_address src_ip then src_ip.take 45
                      else if is_nat64_address dst_ip then dst_ip.take 45
                      else [],
          nat64_port := if is_nat64_address src_ip then src_port
                        else if is_nat64_address dst_ip then dst_port
                        else 0 }
      some (i, streams.set i st)
    | none => none

def nat64SrcAddr : List Char := "2001:db8:64::c0a8:101".data

def plainSrcAddr : List Char := "192.168.1.1".data

def c4DstAddr : List Char := "10.0.0.2".data

def c4Streams0 : List StreamSlot := List.replicate 8 {}

def c4Streams1 : List StreamSlot :=
  ((find_or_create_stream c4Streams0 nat64SrcAddr 6000 c4DstAddr 7000
    1234 0 1).getD (0, c4Streams0)).2

/-- C4: extract_ipv4_from_nat64 on 2001:db8:64::c0a8:101 FAILS (returns 0):
strrchr leaves only the final hex group "101", in which the format
"%02x%02x:%02x%02x" can never find its literal colon, so the sscanf matches
fewer than 4 conversions.  Consequently addresses_match with 192.168.1.1 is
false, and a packet arriving with the plain IPv4 source while the stream was
created under the NAT64 source allocates a SECOND stream record (slot 1)
instead of coalescing into slot 0. -/
theorem C4_nat64_extraction :
    extract_ipv4_from_nat64 nat64SrcAddr = none ∧
    addresses_match nat64SrcAddr plainSrcAddr = false ∧
    (find_or_create_stream c4Streams0 nat64SrcAddr 6000 c4DstAddr 7000
      1234 0 1).map Prod.fst = some 0 ∧
    (find_or_create_stream c4Streams1 plainSrcAddr 6000 c4DstAddr 7000
      1234 0 1).map Prod.fst = some 1 := by
  decide

/-!
## SIP dialog state machine (src/src/network/sip_utils.c)
-/

inductive DialogState where
  | init
  | trying
  | established
  | terminated
deriving DecidableEq

/-- The session fields process_sip_packet touches besides SDP storage. -/
structure SipSession where
  dialog : DialogState := DialogState.init
  sip_packets : Nat := 0
  last_sip_seen : Nat := 0
  last_bye_seen : Nat := 0
deriving DecidableEq

/-- Outcome of the parsing probes in process_sip_packet: response when
sscanf(msg, "SIP/2.0 %d") matches (with hasCSeq = strstr(msg, "CSeq:")
non-null and cseqHasInvite / cseqHasBye = strstr from that position finding
"INVITE" / "BYE"); request when the message instead yields two tokens to
sscanf(msg, "%31s %255s"); unparsed otherwise. -/
inductive SipMsg where
  | response (code : Nat) (hasCSeq : Bool) (cseqHasInvite : Bool) (cseqHasBye : Bool)
  | request (method : String)
  | unparsed
deriving DecidableEq

/-- process_sip_packet (sip_utils.c, lines 48-153), dialog-state part.  SDP
extraction (process_sdp) runs first but touches only the stream_info table,
never the dialog.  The packet counter and last_sip_seen stamp happen for
every packet; now stands for time(NULL). -/
def process_sip_packet (s0 : SipSession) (m : SipMsg) (now : Nat) : SipSession :=
  let s := { s0 with sip_packets := s0.sip_packets + 1, last_sip_seen := now }
  match m with
  | SipMsg.response code hasCSeq inv bye =>
    if code = 200 then
      if ¬ hasCSeq then s
      else if inv then { s with dialog := DialogState.established }
      else if bye then
        let s := { s with dialog := DialogState.terminated }
        if s.last_bye_seen = 0 then { s with last_bye_seen := now } else s
      else s
    else if code = 486 ∨ code = 487 ∨ code = 603 then
      { s with dialog := DialogState.terminated }
    else s
  | SipMsg.request method =>
    if method = "INVITE" then { s with dialog := DialogState.trying }
    else if method = "BYE" then
      let s := { s with dialog := DialogState.terminated }
      if s.last_bye_seen = 0 then { s with last_bye_seen := now } else s
    else if method = "CANCEL" then { s with dialog := DialogState.terminated }
    else s
  | SipMsg.unparsed => s

/-- The amended transition table: a 200 response with CSeq INVITE enters
ESTABLISHED from EVERY state; a 200 response with CSeq BYE, a 486/487/603
response, a BYE request and a CANCEL request enter TERMINATED from every
state; an INVITE request enters TRYING from every state; every other message
leaves the dialog state unchanged. -/
def dialog_transition_amended (st : DialogState) (m : SipMsg) : DialogState :=
  match m with
  | SipMsg.response code hasCSeq inv bye =>
    if code = 200 ∧ hasCSeq ∧ inv then DialogState.established
    else if code = 200 ∧ hasCSeq ∧ ¬ inv ∧ bye then DialogState.terminated
    else if code = 486 ∨ code = 487 ∨ code = 603 then DialogState.terminated
    else st
  | SipMsg.request method =>
    if method = "INVITE" then DialogState.trying
    else if method = "BYE" ∨ method = "CANCEL" then DialogState.terminated
    else st
  | SipMsg.unparsed => st

/-- C5 counterexample: a 200 response with CSeq method INVITE received in
state TERMINATED (not TRYING) moves the dialog to ESTABLISHED - the code
never consults the current state before assigning - whereas the claim says
such a message leaves every non-TRYING state unchanged. -/
theorem C5_counterexample :
    (process_sip_packet { dialog := DialogState.terminated }
      (SipMsg.response 200 true true false) 5).dialog = DialogState.established ∧
    DialogState.terminated ≠ DialogState.trying ∧
    DialogState.established ≠ DialogState.terminated := by
  decide

/-- C5 (amended).  The dialog FSM of process_sip_packet is exactly
dialog_transition_amended: the 200-with-CSeq-INVITE and 486/487/603
transitions (like the BYE, CANCEL and 200-with-CSeq-BYE ones) fire from
EVERY state, not only from TRYING; messages outside the table never change
the dialog state. -/
theorem C5_dialog_fsm (s : SipSession) (m : SipMsg) (now : Nat) :
    (process_sip_packet s m now).dialog = dialog_transition_amended s.dialog m := by
  cases m with
  | response code hasCSeq inv bye =>
    by_cases h200 : code = 200
    · subst h200
      cases hasCSeq <;> cases inv <;> cases bye <;>
        (simp [process_sip_packet, dialog_transition_amended];
         all_goals (split <;> rfl))
    · by_cases herr : code = 486 ∨ code = 487 ∨ code = 603
      · simp [process_sip_packet, dialog_transition_amended, h200, herr]
      · simp [process_sip_packet, dialog_transition_amended, h200, herr]
  | request method =>
    by_cases hI : method = "INVITE"
    · simp [process_sip_packet, dialog_transition_amended, hI]
    · by_cases hB : method = "BYE"
      · simp [process_sip_packet, dialog_transition_amended, hI, hB]
        split <;> rfl
      · by_cases hC : method = "CANCEL"
        · simp [process_sip_packet, dialog_transition_amended, hI, hB, hC]
        · simp [process_sip_packet, dialog_transition_amended, hI, hB, hC]
  | unparsed => rfl

/-!
## Packet dissector (src/src/network/packet_utils.c)

Frames are lists of byte values; reads go through byteAt, which reduces any
stored value modulo 256 and yields 0 beyond the captured length (the C code
reads raw memory there; every frame below is long enough that this never
matters). -/

def byteAt (pkt : List Nat) (i : Nat) : Nat := pkt.getD i 0 % 256

/-- ntohs(eth->ether_type): bytes 12-13 of the frame, big-endian. -/
def etherTypeOf (pkt : List Nat) : Nat := byteAt pkt 12 * 256 + byteAt pkt 13

/-- get_packet_headers (packet_utils.c, lines 50-97).  ETHERTYPE_IP =
0x0800 = 2048, IPPROTO_UDP = 17; sizeof(ether_header) = 14,
sizeof(udphdr) = 8; ip_vhl is the byte at offset 14 and ip_p the byte at
offset 23.  Returns the (ip, udp) offsets the C function stores through its
out-pointers, or none for the -1 error return.  Frames whose ether type is
not IPv4 - including IPv6 (0x86dd) - are dropped before any IP parsing, as
the source comments: "silently ignore IPv6". -/
def get_packet_headers (pkt : List Nat) (len : Nat) : Option (Nat × Nat) :=
  if len < 14 then none
  else if etherTypeOf pkt ≠ 2048 then none
  else
    let vhl := byteAt pkt 14
    let ihl := vhl % 16 * 4
    if vhl / 16 ≠ 4 ∨ ihl < 20 then none
    else if len < 14 + ihl then none
    else if byteAt pkt 23 ≠ 17 then none
    else if len < 14 + ihl + 8 then none
    else some (14, 14 + ihl)

/-- A well-formed Ethernet II / IPv4 / UDP frame: 14 + 20 + 8 = 42 bytes,
ether type 0x0800, version 4 ihl 5, protocol 17, ports 5060 -> 8000. -/
def ipv4UdpFrame : List Nat :=
  [0, 1, 2, 3, 4, 5, 10, 11, 12, 13, 14, 15, 8, 0,
   69, 0, 0, 28, 0, 0, 0, 0, 64, 17, 0, 0, 192, 168, 1, 1, 192, 168, 1, 2,
   19, 196, 31, 64, 0, 8, 0, 0]

/-- A well-formed Ethernet II / IPv6 / UDP frame: 14 + 40 + 8 = 62 bytes,
ether type 0x86dd, version 6, next header 17 (UDP), payload length 8,
src 2001:db8:64::1, dst 2001:db8:64::2, ports 5060 -> 8000. -/
def ipv6UdpFrame : List Nat :=
  [0, 1, 2, 3, 4, 5, 10, 11, 12, 13, 14, 15, 134, 221,
   96, 0, 0, 0, 0, 8, 17, 64,
   32, 1, 13, 184, 0, 100, 0, 0, 0, 0, 0, 0, 0, 0, 0, 1,
   32, 1, 13, 184, 0, 100, 0, 0, 0, 0, 0, 0, 0, 0, 0, 2,
   19, 196, 31, 64, 0, 8, 0, 0]

/-- An Ethernet II frame with ether type 0x0806 (ARP), 42 bytes. -/
def arpFrame : List Nat :=
  [0, 1, 2, 3, 4, 5, 10, 11, 12, 13, 14, 15, 8, 6,
   0, 1, 8, 0, 6, 4, 0, 1, 10, 11, 12, 13, 14, 15, 192, 168, 1, 1,
   0, 0, 0, 0, 0, 0, 192, 168, 1, 2]

/-- C9 counterexample: the dissector rejects a well-formed IPv6/UDP frame
(returns -1 at the ether-type check), while the claim says it accepts IPv6
and yields the frame's UDP payload. -/
theorem C9_counterexample : get_packet_headers ipv6UdpFrame 62 = none := by
  decide

/-- C9 (amended).  The dissector accepts only Ethernet II frames carrying
IPv4 with UDP: every frame whose ether type is not 0x0800 - IPv6 (0x86dd)
explicitly included - is silently dropped, and a well-formed IPv4/UDP frame
is accepted with the IP header at offset 14 and the UDP header at
offset 34. -/
theorem C9_dissector :
    (∀ (pkt : List Nat) (len : Nat), etherTypeOf pkt ≠ 2048 →
      get_packet_headers pkt len = none) ∧
    get_packet_headers ipv4UdpFrame 42 = some (14, 34) := by
  constructor
  · intro pkt len h
    unfold get_packet_headers
    by_cases h14 : len < 14
    · simp [h14]
    · simp [h14, h]
  · decide

/-- C9 witness: the amended theorem's universal part applied to a concrete
ARP frame (ether type 0x0806). -/
theorem C9_dissector_witness :
    etherTypeOf arpFrame ≠ 2048 ∧ get_packet_headers arpFrame 42 = none :=
  ⟨by decide, C9_dissector.1 arpFrame 42 (by decide)⟩

/-!
## Statistics getters (src/src/core/call_session.c)

The getters take a const session and write only through their out-pointers.
The embedding threads an explicit memory record (session plus the caller's
out-cells) through every statement, so that the read-only property is a
statement about the function, not a typing artifact. -/

/-- The per-stream fields get_call_quality_stats reads. -/
structure QStream where
  active : Bool := false
  jitter : ℚ := 0
  lost_packets : Nat := 0
  out_of_order : Nat := 0
deriving DecidableEq

/-- The session fields the two getters read. -/
structure CallSessionRec where
  total_packets : Nat := 0
  sip_packets : Nat := 0
  dialog : DialogState := DialogState.init
  streams : List QStream := List.replicate 8 {}
deriving DecidableEq

/-- Memory visible to the getters: the session plus the caller's
out-parameters; none models a NULL out-pointer / a never-written cell. -/
structure StatsMem where
  session : CallSessionRec := {}
  out_total : Option Nat := none
  out_sip : Option Nat := none
  out_streams : Option Nat := none
  out_avg_jitter : Option ℚ := none
  out_lost : Option Nat := none
  out_ooo : Option Nat := none
deriving DecidableEq

/-- Stream-counting loop of get_session_stats (call_session.c,
lines 186-191): (*rtp_streams)++ per active stream, threading the memory. -/
def countActiveLoop (m : StatsMem) : List QStream → StatsMem
  | [] => m
  | st :: rest =>
    countActiveLoop
      (if st.active then { m with out_streams := some (m.out_streams.getD 0 + 1) }
       else m) rest

/-- get_session_stats (call_session.c, lines 177-192); each Bool flag models
whether the corresponding out-pointer is non-NULL. -/
def get_session_stats (m0 : StatsMem) (wantTotal wantSip wantStreams : Bool) :
    StatsMem :=
  let m := if wantTotal then { m0 with out_total := some m0.session.total_packets }
           else m0
  let m := if wantSip then { m with out_sip := some m.session.sip_packets } else m
  if wantStreams then countActiveLoop { m with out_streams := some 0 } m.session.streams
  else m

/-- Accumulation loop of get_call_quality_stats (call_session.c,
lines 210-222): per active stream, total jitter, lost, out-of-order and the
stream count - all in locals. -/
def qualityTotals (streams : List QStream) : ℚ × Nat × Nat × Nat :=
  streams.foldl
    (fun acc st =>
      if st.active then
        (acc.1 + st.jitter, acc.2.1 + st.lost_packets,
         acc.2.2.1 + st.out_of_order, acc.2.2.2 + 1)
      else acc)
    (0, 0, 0, 0)

/-- get_call_quality_stats (call_session.c, lines 204-229). -/
def get_call_quality_stats (m0 : StatsMem) (wantJitter wantLost wantOoo : Bool) :
    StatsMem :=
  let t := qualityTotals m0.session.streams
  let avg : ℚ := if 0 < t.2.2.2 then t.1 / (t.2.2.2 : ℚ) else 0
  let m := if wantJitter then { m0 with out_avg_jitter := some avg } else m0
  let m := if wantLost then { m with out_lost := some t.2.1 } else m
  if wantOoo then { m with out_ooo := some t.2.2.1 } else m

theorem countActiveLoop_session (l : List QStream) : ∀ (m : StatsMem),
    (countActiveLoop m l).session = m.session := by
  induction l with
  | nil => intro m; rfl
  | cons st rest ih =>
    intro m
    simp only [countActiveLoop]
    rw [ih]
    split <;> rfl

/-- C10.  The statistics getters are read-only on the session: for every
memory state and every combination of non-NULL out-pointers, both
get_session_stats and get_call_quality_stats leave every session field
unchanged, writing only the out-cells. -/
theorem C10_getters_readonly (m : StatsMem) (a b c d e f : Bool) :
    (get_session_stats m a b c).session = m.session ∧
    (get_call_quality_stats m d e f).session = m.session := by
  constructor
  · cases a <;> cases b <;> cases c <;>
      simp [get_session_stats, countActiveLoop_session]
  · cases d <;> cases e <;> cases f <;>
      simp [get_call_quality_stats]

end CMAP
